import Mathlib

/-!
Shallow embedding of the deep-scrape worker (`src/index.ts` of the
jh-poc-chrome-extension deep-scrape worker): selector resolution, queue
dispatch, extraction, the production-jobs ledger, the self-healing workflow
steps and the ExtensionBridge durable object.

Platform collaborators that the worker treats as opaque capabilities are
modelled as explicit parameters or outcome values:
  - the URL parser (zod `.url()`, `new URL`) is a boolean predicate or a
    resolver function passed in;
  - JSON text handling is modelled at the decoded level: a stored or
    transmitted JSON string is represented by `Option PartialSelectors`
    (`none` = the text does not parse as JSON, `some p` = the decoded
    object restricted to the selector fields), and `JSON.stringify` of a
    selector config by `SelectorConfig.toPartial`;
  - the browser DOM query results are modelled by `CandidateElement`
    values: what `querySelector` plus `textContent`/`href` produced for
    one container matched by the jobContainer selector.
-/

namespace JobScraper

/-- The validated selector configuration (`selectorSchema`): `jobContainer`,
`title`, `link` required with min length 1; `location`, `description`
optional with min length 1 when present. -/
structure SelectorConfig where
  jobContainer : String
  title : String
  link : String
  location : Option String
  description : Option String
deriving Repr, DecidableEq

/-- A JSON object carrying any subset of the selector fields, as decoded
from a queue payload (`selectorSchema.partial()`) or from a stored JSON
string before validation. -/
structure PartialSelectors where
  jobContainer : Option String
  title : Option String
  link : Option String
  location : Option String
  description : Option String
deriving Repr, DecidableEq

/-- The built-in `DEFAULT_SELECTORS` constant. -/
def DEFAULT_SELECTORS : SelectorConfig :=
  { jobContainer := "[data-job-card], .job-card, li, article"
    title := "a, h2, h3"
    link := "a"
    location := some ".job-location, .location, [data-location]"
    description := some "p, .description" }

/-- zod `z.string().min(1)`. -/
def minLen1 (s : String) : Bool := decide (1 ≤ s.length)

/-- zod `z.string().min(1).optional()`: absent passes, present must be
non-empty. -/
def optFieldOk : Option String → Bool
  | none => true
  | some s => minLen1 s

/-- JavaScript truthiness of a possibly null or undefined string value. -/
def truthyOptStr : Option String → Bool
  | none => false
  | some s => !s.isEmpty

/-- Validation of a decoded object against the full `selectorSchema`:
the three required fields must be present and non-empty, the optional
fields non-empty when present. -/
def selectorSchemaParse (p : PartialSelectors) : Option SelectorConfig :=
  match p.jobContainer, p.title, p.link with
  | some jc, some t, some l =>
    if minLen1 jc && minLen1 t && minLen1 l
        && optFieldOk p.location && optFieldOk p.description then
      some { jobContainer := jc, title := t, link := l
             location := p.location, description := p.description }
    else
      none
  | _, _, _ => none

/-- Validation against `selectorSchema.partial()`: every present field must
be non-empty; nothing is required. -/
def partialSelectorSchemaParse (p : PartialSelectors) : Option PartialSelectors :=
  if optFieldOk p.jobContainer && optFieldOk p.title && optFieldOk p.link
      && optFieldOk p.location && optFieldOk p.description then
    some p
  else
    none

/-- The source function `parseSelectorPayload(serialized)`. The outer
`Option` is the serialized value itself (`none` = null, undefined or the
empty string, all falsy); the inner `Option` is the JSON decode outcome
(`none` = `JSON.parse` throws). A decoded object is then validated against
the full `selectorSchema`; any failure yields `undefined`. -/
def parseSelectorPayload : Option (Option PartialSelectors) → Option SelectorConfig
  | none => none
  | some none => none
  | some (some p) => selectorSchemaParse p

/-- The source function `mergeSelectors(overrides, fallback)`: the object
spread of the overrides over the fallback, so every field present in the
overrides replaces the field of the fallback. At its one call site the
fallback argument is left at its default, `DEFAULT_SELECTORS`. -/
def mergeSelectors (overrides : Option PartialSelectors) (fallback : SelectorConfig) : SelectorConfig :=
  match overrides with
  | none => fallback
  | some o =>
    { jobContainer := o.jobContainer.getD fallback.jobContainer
      title := o.title.getD fallback.title
      link := o.link.getD fallback.link
      location := o.location <|> fallback.location
      description := o.description <|> fallback.description }

/-- The selector-resolution sequence of `handleQueueMessage`: if the work
item carries `overrideSelectors`, they are merged over the defaults and no
other tier is consulted; otherwise the relational `override_selectors`
payload is parsed; otherwise the cached KV payload is parsed; otherwise the
built-in defaults are used. -/
def resolveSelectors (overrideSelectors : Option PartialSelectors)
    (dbOverrideSelectors : Option (Option PartialSelectors))
    (kvValue : Option (Option PartialSelectors)) : SelectorConfig :=
  match overrideSelectors with
  | some ov => mergeSelectors (some ov) DEFAULT_SELECTORS
  | none =>
    match parseSelectorPayload dbOverrideSelectors with
    | some s => s
    | none =>
      match parseSelectorPayload kvValue with
      | some s => s
      | none => DEFAULT_SELECTORS

/-- The source function `buildSelectorKvKey`: the KV prefix `selectors`
followed by a colon and the company id. -/
def buildSelectorKvKey (companyId : String) : String :=
  "selectors" ++ ":" ++ companyId

/-- The decoded form of `JSON.stringify` applied to a validated
`SelectorConfig`: all required fields present, optional fields exactly as
in the config. -/
def SelectorConfig.toPartial (s : SelectorConfig) : PartialSelectors :=
  { jobContainer := some s.jobContainer
    title := some s.title
    link := some s.link
    location := s.location
    description := s.description }

/-- A raw queue message body before validation: the fields that
`queuePayloadSchema` inspects, each possibly absent. The `metadata` field
(an arbitrary optional record, unused by the worker) is not modelled. -/
structure RawQueuePayload where
  companyId : Option String
  linkedinUrl : Option String
  overrideSelectors : Option PartialSelectors
deriving Repr, DecidableEq

/-- A queue payload that passed `queuePayloadSchema`. -/
structure QueuePayload where
  companyId : String
  linkedinUrl : String
  overrideSelectors : Option PartialSelectors
deriving Repr, DecidableEq

/-- Validation against `queuePayloadSchema`: `companyId` non-empty,
`linkedinUrl` a URL (the platform URL check is the parameter `isUrl`),
`overrideSelectors` optional but validated against
`selectorSchema.partial()` when present. -/
def queuePayloadSchemaParse (isUrl : String → Bool) (raw : RawQueuePayload) : Option QueuePayload :=
  match raw.companyId, raw.linkedinUrl with
  | some cid, some u =>
    if minLen1 cid && isUrl u then
      match raw.overrideSelectors with
      | none => some { companyId := cid, linkedinUrl := u, overrideSelectors := none }
      | some p =>
        (partialSelectorSchemaParse p).map
          (fun q => { companyId := cid, linkedinUrl := u, overrideSelectors := some q })
    else
      none
  | _, _ => none

/-- One container element matched by the `jobContainer` selector, described
by what the DOM queries of the `page.evaluate` closure produce on it. Each
field is the `textContent` (or href value) of the queried node: `none`
models a missing node or a null text. The href value is whatever the
browser reports (absolutized for anchor elements). -/
structure CandidateElement where
  titleText : Option String
  hrefValue : Option String
  locationText : Option String
  descriptionText : Option String
  containerText : Option String
deriving Repr, DecidableEq

/-- The intermediate record built inside `page.evaluate` for one container. -/
structure RawExtractedJob where
  title : String
  href : String
  location : String
  snippet : String
deriving Repr, DecidableEq

/-- The normalized job shape returned by extraction (`ScrapedJob`). -/
structure ScrapedJob where
  title : String
  url : String
  location : Option String
  snippet : Option String
deriving Repr, DecidableEq

/-- JavaScript `String.prototype.trim` applied to the character list,
dropping leading whitespace; the JS whitespace set is modelled by
`Char.isWhitespace`. Structural recursion keeps it kernel-reducible. -/
def trimLeftChars : List Char → List Char
  | [] => []
  | ch :: rest => if ch.isWhitespace then trimLeftChars rest else ch :: rest

/-- JavaScript `String.prototype.trim`: drop whitespace from both ends. -/
def jsTrim (s : String) : String :=
  ⟨(trimLeftChars (trimLeftChars s.data.reverse).reverse)⟩

/-- JavaScript `String.prototype.slice(0, n)`, modelled on characters. -/
def jsSliceTo (n : Nat) (s : String) : String :=
  ⟨s.data.take n⟩

/-- A conditional DOM query `selField ? container.querySelector(selField) : null`
followed by reading the node: a falsy selector string short-circuits to null. -/
def optSelQuery (selField : Option String) (nodeText : Option String) : Option String :=
  match selField with
  | some s => if s.isEmpty then none else nodeText
  | none => none

/-- The per-container body of the `page.evaluate` closure in
`extractJobsFromPage`: trims texts, defaults missing values to the empty
string, and falls back from the description text to the first 400
characters of the container text for the snippet. -/
def evalCandidate (sel : SelectorConfig) (c : CandidateElement) : RawExtractedJob :=
  let titleNode := if sel.title.isEmpty then none else c.titleText
  let linkNode := if sel.link.isEmpty then none else c.hrefValue
  let locationNode := optSelQuery sel.location c.locationText
  let descriptionNode := optSelQuery sel.description c.descriptionText
  { title := (titleNode.map jsTrim).getD ""
    href := linkNode.getD ""
    location := (locationNode.map jsTrim).getD ""
    snippet :=
      match descriptionNode.map jsTrim with
      | some s => s
      | none => (c.containerText.map (fun t => jsSliceTo 400 (jsTrim t))).getD "" }

/-- The source function `extractJobsFromPage`: evaluates every container,
keeps a candidate only when its title and href are both truthy (non-empty),
and maps the survivors to `ScrapedJob`, turning empty optional texts into
absent fields. The `containers` list models the result of
`document.querySelectorAll(sel.jobContainer)`. -/
def extractJobsFromPage (sel : SelectorConfig) (containers : List CandidateElement) : List ScrapedJob :=
  let rawJobs := (containers.map (evalCandidate sel)).filter
    (fun job => !job.title.isEmpty && !job.href.isEmpty)
  rawJobs.map (fun job =>
    { title := job.title
      url := job.href
      location := if job.location.isEmpty then none else some job.location
      snippet := if job.snippet.isEmpty then none else some job.snippet })

/-- One row of the `production_jobs` table. The `raw_payload` column holds
`JSON.stringify(job)`; it is modelled by the job value itself. -/
structure ProductionJobRow where
  job_id : String
  company_id : String
  title : String
  location : Option String
  url : String
  snippet : Option String
  scraped_at : String
  raw_payload : ScrapedJob
deriving Repr, DecidableEq

/-- Whether a row matches the UNIQUE(company_id, url) key. -/
def jobKeyMatches (companyId url : String) (r : ProductionJobRow) : Bool :=
  r.company_id == companyId && r.url == url

/-- Number of `production_jobs` rows holding the given key. -/
def countMatching (table : List ProductionJobRow) (companyId url : String) : Nat :=
  (table.filter (jobKeyMatches companyId url)).length

/-- The `INSERT ... ON CONFLICT(company_id, url) DO UPDATE` statement of
`storeJobs`: when a row with the key exists, its mutable columns (title,
location, snippet, scraped_at, raw_payload) are overwritten and nothing
else changes; otherwise a fresh row is inserted with the supplied job id. -/
def upsertProductionJob (table : List ProductionJobRow) (jobId companyId title : String)
    (location : Option String) (url : String) (snippet : Option String)
    (scrapedAt : String) (rawPayload : ScrapedJob) : List ProductionJobRow :=
  if table.any (jobKeyMatches companyId url) then
    table.map (fun r =>
      if jobKeyMatches companyId url r then
        { r with title := title, location := location, snippet := snippet,
                 scraped_at := scrapedAt, raw_payload := rawPayload }
      else r)
  else
    table ++ [{ job_id := jobId, company_id := companyId, title := title,
                location := location, url := url, snippet := snippet,
                scraped_at := scrapedAt, raw_payload := rawPayload }]

/-- The source function `normalizeUrl`: resolve the candidate against the
base URL via the platform URL parser (`resolveUrl`, `none` = the
constructor throws), falling back to the raw candidate. -/
def normalizeUrl (resolveUrl : String → String → Option String) (candidate baseUrl : String) : String :=
  (resolveUrl candidate baseUrl).getD candidate

/-- JavaScript `value || null` on an optional string. -/
def truthyOrNone : Option String → Option String
  | none => none
  | some s => if s.isEmpty then none else some s

/-- The source function `storeJobs`: one upsert per extracted job, in
order, each with a freshly generated uuid (`uuidAt` indexes the generator
calls) and the normalized absolute URL. -/
def storeJobs (resolveUrl : String → String → Option String) (uuidAt : Nat → String)
    (companyId baseUrl : String) (jobs : List ScrapedJob) (scrapedAt : String)
    (table : List ProductionJobRow) : List ProductionJobRow :=
  jobs.enum.foldl (fun acc ij =>
    upsertProductionJob acc (uuidAt ij.1) companyId ij.2.title
      (truthyOrNone ij.2.location) (normalizeUrl resolveUrl ij.2.url baseUrl)
      (truthyOrNone ij.2.snippet) scrapedAt ij.2) table

/-- Outcome of the canonical-URL inference call as seen by
`deriveCanonicalViaAI`: the gateway throws, the response text holds no
parseable JSON object (no brace pair, or `JSON.parse` throws), or it
decodes to an object whose `canonical_url` field is the given value. -/
inductive CanonicalAiOutcome where
  | throws
  | noJson
  | json (canonical_url : Option String)
deriving Repr, DecidableEq

/-- The source function `deriveCanonicalViaAI`: every internal failure is
caught and becomes `null`; a decoded `canonical_url` is returned only when
truthy and accepted by the platform URL parser. -/
def deriveCanonicalViaAI (isUrl : String → Bool) : CanonicalAiOutcome → Option String
  | .throws => none
  | .noJson => none
  | .json none => none
  | .json (some u) => if !u.isEmpty && isUrl u then some u else none

/-- Outcome of the selector-suggestion inference call as seen by
`suggestSelectorsWithAI`: the gateway throws, the response text holds no
parseable JSON, or it decodes to an object with the given selector fields. -/
inductive InferenceOutcome where
  | throws
  | noJson
  | json (p : PartialSelectors)
deriving Repr, DecidableEq

/-- The source function `suggestSelectorsWithAI`: a thrown gateway call or
unparseable response is caught and becomes `null`; a decoded object is
validated against the full `selectorSchema` and returned only on success. -/
def suggestSelectorsWithAI : InferenceOutcome → Option SelectorConfig
  | .throws => none
  | .noJson => none
  | .json p => selectorSchemaParse p

/-- The `ai-selector-suggestion` step body of `SelfHealingWorkflow.run`:
`suggested ?? existingSelectors ?? DEFAULT_SELECTORS`. -/
def aiSelectorSuggestionStep (outcome : InferenceOutcome)
    (existingSelectors : Option SelectorConfig) : SelectorConfig :=
  match suggestSelectorsWithAI outcome with
  | some suggested => suggested
  | none =>
    match existingSelectors with
    | some s => s
    | none => DEFAULT_SELECTORS

/-- One row of the `company_configs` table. The `override_selectors`
column is a JSON string, modelled at the decoded level as in
`parseSelectorPayload`. -/
structure CompanyConfigRow where
  company_id : String
  careers_page_url : Option String
  override_selectors : Option (Option PartialSelectors)
  updated_at : Option String

/-- The input of the self-healing workflow (`SelfHealingWorkflowInput`). -/
structure SelfHealingWorkflowInput where
  companyId : String
  url : String
  fallbackHtml : String
  existingSelectors : Option SelectorConfig
deriving Repr, DecidableEq

/-- The stores the queue handler reads: the platform URL checks, the
`company_configs` table keyed by company id, the selector KV namespace
keyed by KV key, and the `production_jobs` table. -/
structure ScrapeEnv where
  isUrl : String → Bool
  resolveUrl : String → String → Option String
  companyConfigs : String → Option CompanyConfigRow
  selectorKv : String → Option (Option PartialSelectors)
  productionJobs : List ProductionJobRow

/-- Outcome of the rendering session for one work item: the navigation or
in-page evaluation threw, or the page settled with the given serialized
HTML and the given containers matched by the jobContainer selector. -/
inductive PageOutcome where
  | throws
  | ok (html : String) (containers : List CandidateElement)

/-- Whether the work item was acknowledged or sent back for redelivery. -/
inductive AckDecision where
  | ack
  | retry
deriving Repr, DecidableEq

/-- Observable result of handling one queue message: the ack decision, the
self-healing workflow invocations, and the final stores. -/
structure DispatchResult where
  decision : AckDecision
  selfHealCalls : List SelfHealingWorkflowInput
  companyConfigs : String → Option CompanyConfigRow
  productionJobs : List ProductionJobRow

/-- The source function `triggerSelfHealing`: it awaits
`SELF_HEALING.run(input)` inside a try/catch, so whether the workflow run
resolves or rejects, the only observable effect on the dispatcher is the
recorded invocation. -/
def triggerSelfHealing (selfHealRunThrows : Bool) (input : SelfHealingWorkflowInput) :
    List SelfHealingWorkflowInput :=
  match selfHealRunThrows with
  | true => [input]
  | false => [input]

/-- The source function `handleQueueMessage`, with each collaborator
outcome passed explicitly. Control flow mirrors the source: schema-invalid
bodies are acked and dropped; the target URL prefers a persisted canonical
URL (nullish coalescing); a thrown rendering session reaches the catch
block, which retries; the canonical backfill runs only when the company
has no truthy canonical URL and the HTML is truthy. The backfill INSERT OR
REPLACE statement names the column `override_selectors` inside its VALUES
clause, which SQLite rejects with a prepare error (no such column), so
whenever a canonical URL was derived the `.run()` call throws and the
catch block retries the message without further effects. Zero extracted
records trigger exactly one self-healing invocation followed by an ack;
otherwise the jobs are stored and the message is acked. -/
def handleQueueMessage (env : ScrapeEnv) (pageOutcome : PageOutcome)
    (canonicalAi : CanonicalAiOutcome) (selfHealRunThrows : Bool) (now : String)
    (uuidAt : Nat → String) (body : RawQueuePayload) : DispatchResult :=
  match queuePayloadSchemaParse env.isUrl body with
  | none =>
    { decision := .ack, selfHealCalls := []
      companyConfigs := env.companyConfigs, productionJobs := env.productionJobs }
  | some payload =>
    let configRow := env.companyConfigs payload.companyId
    let selectors := resolveSelectors payload.overrideSelectors
      (configRow.bind (fun r => r.override_selectors))
      (env.selectorKv (buildSelectorKvKey payload.companyId))
    let targetUrl := (configRow.bind (fun r => r.careers_page_url)).getD payload.linkedinUrl
    match pageOutcome with
    | .throws =>
      { decision := .retry, selfHealCalls := []
        companyConfigs := env.companyConfigs, productionJobs := env.productionJobs }
    | .ok html containers =>
      let extracted := extractJobsFromPage selectors containers
      let finish : DispatchResult :=
        if extracted.isEmpty then
          { decision := .ack
            selfHealCalls := triggerSelfHealing selfHealRunThrows
              { companyId := payload.companyId, url := targetUrl
                fallbackHtml := html, existingSelectors := some selectors }
            companyConfigs := env.companyConfigs
            productionJobs := env.productionJobs }
        else
          { decision := .ack, selfHealCalls := []
            companyConfigs := env.companyConfigs
            productionJobs := storeJobs env.resolveUrl uuidAt payload.companyId
              targetUrl extracted now env.productionJobs }
      if !truthyOptStr (configRow.bind (fun r => r.careers_page_url)) && !html.isEmpty then
        match deriveCanonicalViaAI env.isUrl canonicalAi with
        | some _ =>
          { decision := .retry, selfHealCalls := []
            companyConfigs := env.companyConfigs, productionJobs := env.productionJobs }
        | none => finish
      else finish

/-- The two stores written by the `persist-selector-updates` step. -/
structure WorkflowStores where
  selectorKv : String → Option (Option PartialSelectors)
  companyConfigs : String → Option CompanyConfigRow

/-- The `persist-selector-updates` step body of `SelfHealingWorkflow.run`:
puts the serialized selectors under the KV key, then runs an INSERT whose
VALUES take the existing `careers_page_url` when a row exists (COALESCE of
a correlated subselect with the workflow URL) and whose ON CONFLICT branch
updates only `override_selectors` and `updated_at`. -/
def persistSelectorUpdatesStep (stores : WorkflowStores) (companyId url : String)
    (selectors : SelectorConfig) (now : String) : WorkflowStores :=
  let serialized := SelectorConfig.toPartial selectors
  { selectorKv := fun k =>
      if k = buildSelectorKvKey companyId then some (some serialized)
      else stores.selectorKv k
    companyConfigs := fun c =>
      if c = companyId then
        match stores.companyConfigs companyId with
        | some row =>
          some { row with override_selectors := some (some serialized), updated_at := some now }
        | none =>
          some { company_id := companyId, careers_page_url := some url
                 override_selectors := some (some serialized), updated_at := some now }
      else stores.companyConfigs c }

/-- Durable storage of one `ExtensionBridge` durable object: the two
independent slots. -/
structure BridgeState where
  command : Option String
  html : Option String
deriving Repr, DecidableEq

/-- A request to `ExtensionBridge.fetch`, by path and method. The POST
/html body is modelled by its decoded `html` field. -/
inductive BridgeRequest where
  | getCommand
  | postCommand (body : String)
  | getHtml
  | postHtml (htmlBody : String)
  | otherPath
  | knownPathOtherMethod
deriving Repr, DecidableEq

/-- The response of `ExtensionBridge.fetch`, reduced to what callers
observe: a 200 with a text body, the 200 JSON ok, a 404, or a 405. -/
inductive BridgeResponse where
  | okBody (body : String)
  | okJson
  | notFound
  | methodNotAllowed
deriving Repr, DecidableEq

/-- The source method `ExtensionBridge.fetch`: GET on a slot returns its
value when truthy and 404 otherwise; POST replaces the slot; unknown paths
are 404 and known paths with other methods 405. No branch removes a slot. -/
def ExtensionBridge.fetch (s : BridgeState) : BridgeRequest → BridgeState × BridgeResponse
  | .getCommand =>
    match s.command with
    | some c => if c.isEmpty then (s, .notFound) else (s, .okBody c)
    | none => (s, .notFound)
  | .postCommand body => ({ s with command := some body }, .okBody "OK")
  | .getHtml =>
    match s.html with
    | some h => if h.isEmpty then (s, .notFound) else (s, .okBody h)
    | none => (s, .notFound)
  | .postHtml htmlBody => ({ s with html := some htmlBody }, .okJson)
  | .otherPath => (s, .notFound)
  | .knownPathOtherMethod => (s, .methodNotAllowed)

/-- The `await-extension-html` step body of `SelfHealingWorkflow.run`: one
GET /html against the bridge; the body on a 2xx response, the workflow
fallback HTML otherwise. -/
def awaitExtensionHtmlStep (s : BridgeState) (fallbackHtml : String) : String :=
  match (ExtensionBridge.fetch s .getHtml).2 with
  | .okBody body => body
  | _ => fallbackHtml

/-! Helper lemmas shared by the claim theorems. -/

theorem minLen1_ne_empty {s : String} (h : minLen1 s = true) : s ≠ "" := by
  intro heq
  subst heq
  exact absurd h (by decide)

theorem selectorSchemaParse_required_nonempty {p : PartialSelectors} {s : SelectorConfig}
    (h : selectorSchemaParse p = some s) :
    s.jobContainer ≠ "" ∧ s.title ≠ "" ∧ s.link ≠ "" := by
  unfold selectorSchemaParse at h
  rcases p with ⟨jc, t, l, loc, d⟩
  cases jc <;> cases t <;> cases l <;> simp only [] at h <;> try exact Option.noConfusion h
  split at h
  case isTrue hcond =>
    cases h
    simp only [Bool.and_eq_true] at hcond
    obtain ⟨⟨⟨⟨h1, h2⟩, h3⟩, _⟩, _⟩ := hcond
    exact ⟨minLen1_ne_empty h1, minLen1_ne_empty h2, minLen1_ne_empty h3⟩
  case isFalse _ => exact Option.noConfusion h

theorem parseSelectorPayload_required_nonempty {x : Option (Option PartialSelectors)}
    {s : SelectorConfig} (h : parseSelectorPayload x = some s) :
    s.jobContainer ≠ "" ∧ s.title ≠ "" ∧ s.link ≠ "" := by
  match x with
  | none => exact Option.noConfusion h
  | some none => exact Option.noConfusion h
  | some (some p) => exact selectorSchemaParse_required_nonempty h

theorem partialSelectorSchemaParse_isSome_fields {p : PartialSelectors}
    (h : (partialSelectorSchemaParse p).isSome = true) :
    optFieldOk p.jobContainer = true ∧ optFieldOk p.title = true ∧ optFieldOk p.link = true := by
  unfold partialSelectorSchemaParse at h
  split at h
  case isTrue hcond =>
    simp only [Bool.and_eq_true] at hcond
    obtain ⟨⟨⟨⟨h1, h2⟩, h3⟩, _⟩, _⟩ := hcond
    exact ⟨h1, h2, h3⟩
  case isFalse _ => exact absurd h (by decide)

/-! Claim theorems. -/

/-- C1, counterexample: with work-item override holding only title X and a
persisted relational override holding title Y and link Z, the resolved
config takes the title from the work item but the link from the built-in
default (the CSS selector string a), not from the persisted tier, contrary
to the claimed field-by-field fall-through across all four tiers. -/
theorem C1_counterexample :
    (resolveSelectors
        (some { jobContainer := none, title := some "X", link := none
                location := none, description := none })
        (some (some { jobContainer := none, title := some "Y", link := some "Z"
                      location := none, description := none }))
        none).title = "X"
    ∧ (resolveSelectors
        (some { jobContainer := none, title := some "X", link := none
                location := none, description := none })
        (some (some { jobContainer := none, title := some "Y", link := some "Z"
                      location := none, description := none }))
        none).link = "a"
    ∧ ("a" : String) ≠ "Z" := by
  exact ⟨rfl, rfl, by decide⟩

/-- C1, amended: selector resolution short-circuits at the highest tier
that yields selectors rather than merging field-by-field across tiers. A
present work-item override is merged field-wise with the built-in default
only — the persisted and cached tiers are never consulted; with no
work-item override, the persisted payload is used as a whole object when
it validates as a complete SelectorConfig, then the cached payload as a
whole object, then the built-in default. -/
theorem C1_theorem (ov : PartialSelectors) (db kv : Option (Option PartialSelectors)) :
    ((resolveSelectors (some ov) db kv).jobContainer
        = ov.jobContainer.getD DEFAULT_SELECTORS.jobContainer
      ∧ (resolveSelectors (some ov) db kv).title = ov.title.getD DEFAULT_SELECTORS.title
      ∧ (resolveSelectors (some ov) db kv).link = ov.link.getD DEFAULT_SELECTORS.link
      ∧ (resolveSelectors (some ov) db kv).location = (ov.location <|> DEFAULT_SELECTORS.location)
      ∧ (resolveSelectors (some ov) db kv).description
        = (ov.description <|> DEFAULT_SELECTORS.description))
    ∧ (∀ s, parseSelectorPayload db = some s → resolveSelectors none db kv = s)
    ∧ (parseSelectorPayload db = none →
        ∀ s, parseSelectorPayload kv = some s → resolveSelectors none db kv = s)
    ∧ (parseSelectorPayload db = none → parseSelectorPayload kv = none →
        resolveSelectors none db kv = DEFAULT_SELECTORS) := by
  refine ⟨⟨rfl, rfl, rfl, rfl, rfl⟩, ?_, ?_, ?_⟩
  · intro s h
    simp [resolveSelectors, h]
  · intro h1 s h2
    simp [resolveSelectors, h1, h2]
  · intro h1 h2
    simp [resolveSelectors, h1, h2]

/-- C1, witness: the amended theorem applied at a concrete input — with no
work-item override, a fully valid persisted payload is taken whole. -/
theorem C1_witness :
    resolveSelectors none
      (some (some { jobContainer := some ".card", title := some "Y", link := some "Z"
                    location := none, description := none }))
      none
    = { jobContainer := ".card", title := "Y", link := "Z"
        location := none, description := none } :=
  (C1_theorem { jobContainer := none, title := none, link := none
                location := none, description := none }
      (some (some { jobContainer := some ".card", title := some "Y", link := some "Z"
                    location := none, description := none }))
      none).2.1
    { jobContainer := ".card", title := "Y", link := "Z"
      location := none, description := none }
    (by decide)

/-- C2: resolver totality. For every combination of present or absent
tiers — a work-item override that passed the queue schema, a persisted
payload, a cached payload — the resolved SelectorConfig has non-empty
jobContainer, title and link, because lower tiers only contribute
schema-valid configs and the built-in default supplies every field. -/
theorem C2_theorem (ov : Option PartialSelectors) (db kv : Option (Option PartialSelectors))
    (hov : ∀ p, ov = some p → (partialSelectorSchemaParse p).isSome = true) :
    (resolveSelectors ov db kv).jobContainer ≠ ""
    ∧ (resolveSelectors ov db kv).title ≠ ""
    ∧ (resolveSelectors ov db kv).link ≠ "" := by
  cases ov with
  | none =>
    cases hdb : parseSelectorPayload db with
    | some s =>
      simpa [resolveSelectors, hdb] using parseSelectorPayload_required_nonempty hdb
    | none =>
      cases hkv : parseSelectorPayload kv with
      | some s =>
        simpa [resolveSelectors, hdb, hkv] using parseSelectorPayload_required_nonempty hkv
      | none =>
        simp only [resolveSelectors, hdb, hkv]
        exact ⟨by decide, by decide, by decide⟩
  | some p =>
    obtain ⟨h1, h2, h3⟩ := partialSelectorSchemaParse_isSome_fields (hov p rfl)
    refine ⟨?_, ?_, ?_⟩
    · simp only [resolveSelectors, mergeSelectors]
      cases hf : p.jobContainer with
      | none => simp [DEFAULT_SELECTORS]
      | some v =>
        rw [hf] at h1
        simpa using minLen1_ne_empty h1
    · simp only [resolveSelectors, mergeSelectors]
      cases hf : p.title with
      | none => simp [DEFAULT_SELECTORS]
      | some v =>
        rw [hf] at h2
        simpa using minLen1_ne_empty h2
    · simp only [resolveSelectors, mergeSelectors]
      cases hf : p.link with
      | none => simp [DEFAULT_SELECTORS]
      | some v =>
        rw [hf] at h3
        simpa using minLen1_ne_empty h3

/-- C2, witness: totality evaluated with a work-item override carrying
only a title, a malformed persisted payload and no cached payload. -/
theorem C2_witness :
    (resolveSelectors
        (some { jobContainer := none, title := some "X", link := none
                location := none, description := none })
        (some none) none).jobContainer ≠ ""
    ∧ (resolveSelectors
        (some { jobContainer := none, title := some "X", link := none
                location := none, description := none })
        (some none) none).title ≠ ""
    ∧ (resolveSelectors
        (some { jobContainer := none, title := some "X", link := none
                location := none, description := none })
        (some none) none).link ≠ "" :=
  C2_theorem _ _ _ (fun p hp => by cases hp; decide)

theorem isEmpty_false_iff {s : String} : s.isEmpty = false ↔ s ≠ "" := by
  rw [Bool.eq_false_iff]
  exact not_congr (String.isEmpty_iff s)

/-- C4: the suggest-selectors step always terminates with a usable config
and never surfaces the error: when the gateway throws, when the response
holds no parseable JSON, and when the decoded JSON fails the SelectorConfig
schema, the step result is the existing selectors when provided and the
built-in default otherwise; a schema-valid suggestion is returned as-is. -/
theorem C4_theorem (existing : Option SelectorConfig) :
    aiSelectorSuggestionStep .throws existing = existing.getD DEFAULT_SELECTORS
    ∧ aiSelectorSuggestionStep .noJson existing = existing.getD DEFAULT_SELECTORS
    ∧ (∀ p, selectorSchemaParse p = none →
        aiSelectorSuggestionStep (.json p) existing = existing.getD DEFAULT_SELECTORS)
    ∧ (∀ p s, selectorSchemaParse p = some s →
        aiSelectorSuggestionStep (.json p) existing = s) := by
  refine ⟨?_, ?_, ?_, ?_⟩
  · cases existing <;> rfl
  · cases existing <;> rfl
  · intro p h
    simp only [aiSelectorSuggestionStep, suggestSelectorsWithAI, h]
    cases existing <;> rfl
  · intro p s h
    simp only [aiSelectorSuggestionStep, suggestSelectorsWithAI, h]

/-- C4, witness: the step applied to a response whose JSON misses the
required fields falls back to the provided existing selectors. -/
theorem C4_witness :
    aiSelectorSuggestionStep
      (.json { jobContainer := none, title := some "h2", link := none
               location := none, description := none })
      (some { jobContainer := "#jobs", title := "h2", link := "a.job"
              location := none, description := none })
    = { jobContainer := "#jobs", title := "h2", link := "a.job"
        location := none, description := none } :=
  (C4_theorem (some { jobContainer := "#jobs", title := "h2", link := "a.job"
                      location := none, description := none })).2.2.1
    { jobContainer := none, title := some "h2", link := none
      location := none, description := none }
    (by decide)

/-- C5: the persist-selectors step writes the resolved config under the
selectors KV key and into the relational row, and on a company whose row
already exists it modifies only override_selectors and updated_at, leaving
an already-set careers_page_url (and every other column) unchanged. -/
theorem C5_theorem (stores : WorkflowStores) (companyId url : String)
    (selectors : SelectorConfig) (now : String) (row : CompanyConfigRow) (u : String)
    (hrow : stores.companyConfigs companyId = some row)
    (hurl : row.careers_page_url = some u) :
    (persistSelectorUpdatesStep stores companyId url selectors now).selectorKv
        (buildSelectorKvKey companyId) = some (some (SelectorConfig.toPartial selectors))
    ∧ (persistSelectorUpdatesStep stores companyId url selectors now).companyConfigs companyId
        = some { row with override_selectors := some (some (SelectorConfig.toPartial selectors))
                          updated_at := some now }
    ∧ ((persistSelectorUpdatesStep stores companyId url selectors now).companyConfigs
        companyId).bind (fun r => r.careers_page_url) = some u
    ∧ (∀ k, k ≠ buildSelectorKvKey companyId →
        (persistSelectorUpdatesStep stores companyId url selectors now).selectorKv k
          = stores.selectorKv k)
    ∧ (∀ c, c ≠ companyId →
        (persistSelectorUpdatesStep stores companyId url selectors now).companyConfigs c
          = stores.companyConfigs c) := by
  refine ⟨?_, ?_, ?_, ?_, ?_⟩
  · simp [persistSelectorUpdatesStep]
  · simp [persistSelectorUpdatesStep, hrow]
  · simp [persistSelectorUpdatesStep, hrow, hurl]
  · intro k hk
    simp [persistSelectorUpdatesStep, hk]
  · intro c hc
    simp [persistSelectorUpdatesStep, hc]

/-- C5, witness: on a concrete store holding a row for acme with a set
canonical URL, the step leaves that URL readable unchanged. -/
theorem C5_witness :
    ((persistSelectorUpdatesStep
        { selectorKv := fun _ => none
          companyConfigs := fun c =>
            if c = "acme" then
              some { company_id := "acme"
                     careers_page_url := some "https://acme.example/careers"
                     override_selectors := none, updated_at := none }
            else none }
        "acme" "https://acme.example/jobs" DEFAULT_SELECTORS "t1").companyConfigs
      "acme").bind (fun r => r.careers_page_url) = some "https://acme.example/careers" :=
  (C5_theorem _ "acme" "https://acme.example/jobs" DEFAULT_SELECTORS "t1"
    { company_id := "acme", careers_page_url := some "https://acme.example/careers"
      override_selectors := none, updated_at := none }
    "https://acme.example/careers" (by simp) rfl).2.2.1

/-- C6, counterexample: a candidate that has a title but no link is
discarded by extraction, although the claim says a candidate with at least
one of title, company label and link is kept. -/
theorem C6_counterexample :
    extractJobsFromPage DEFAULT_SELECTORS
      [{ titleText := some "Engineer", hrefValue := none, locationText := none
         descriptionText := none, containerText := none }] = []
    ∧ (evalCandidate DEFAULT_SELECTORS
        { titleText := some "Engineer", hrefValue := none, locationText := none
          descriptionText := none, containerText := none }).title = "Engineer" := by
  exact ⟨rfl, by decide⟩

/-- C6, amended: extraction keeps a candidate exactly when its evaluated
title and its link are both non-empty; a candidate missing either one is
discarded (the extractor reads no company label at all), and every
returned job carries a non-empty title and url. -/
theorem C6_theorem (sel : SelectorConfig) (c : CandidateElement) (cs : List CandidateElement) :
    (∀ j, j ∈ extractJobsFromPage sel cs → j.title ≠ "" ∧ j.url ≠ "")
    ∧ (extractJobsFromPage sel [c] ≠ [] ↔
        ((evalCandidate sel c).title ≠ "" ∧ (evalCandidate sel c).href ≠ "")) := by
  constructor
  · intro j hj
    simp only [extractJobsFromPage, List.mem_map, List.mem_filter,
      Bool.and_eq_true, Bool.not_eq_true'] at hj
    obtain ⟨raw, ⟨_, h1, h2⟩, rfl⟩ := hj
    exact ⟨isEmpty_false_iff.mp h1, isEmpty_false_iff.mp h2⟩
  · cases he : (!(evalCandidate sel c).title.isEmpty && !(evalCandidate sel c).href.isEmpty) with
    | true =>
      simp only [Bool.and_eq_true, Bool.not_eq_true'] at he
      constructor
      · intro _
        exact ⟨isEmpty_false_iff.mp he.1, isEmpty_false_iff.mp he.2⟩
      · intro _
        simp [extractJobsFromPage, List.filter_cons, he.1, he.2]
    | false =>
      simp only [extractJobsFromPage, List.map_cons, List.map_nil, List.filter_cons,
        he, if_false, List.filter_nil, List.map_nil]
      constructor
      · intro hne
        exact absurd rfl hne
      · intro hboth
        rcases Bool.and_eq_false_iff.mp he with hbad | hbad
        · exact absurd (isEmpty_false_iff.mpr hboth.1)
            (by simpa [Bool.not_eq_false'] using hbad)
        · exact absurd (isEmpty_false_iff.mpr hboth.2)
            (by simpa [Bool.not_eq_false'] using hbad)

/-- C6, witness: a candidate with both a title and a link is kept. -/
theorem C6_witness :
    extractJobsFromPage DEFAULT_SELECTORS
      [{ titleText := some "Engineer", hrefValue := some "https://acme.example/j/1"
         locationText := none, descriptionText := none, containerText := none }] ≠ [] :=
  (C6_theorem DEFAULT_SELECTORS
      { titleText := some "Engineer", hrefValue := some "https://acme.example/j/1"
        locationText := none, descriptionText := none, containerText := none }
      []).2.mpr ⟨by decide, by decide⟩

/-- C10, counterexample: posting an empty HTML payload stores it, yet the
await-extension-html read falls back to the workflow fallback HTML, so a
posted HTML does not guarantee later reads return the stored HTML. -/
theorem C10_counterexample :
    ((ExtensionBridge.fetch { command := none, html := none } (.postHtml "")).1).html = some ""
    ∧ awaitExtensionHtmlStep
        (ExtensionBridge.fetch { command := none, html := none } (.postHtml "")).1
        "fallback html" = "fallback html"
    ∧ ("fallback html" : String) ≠ "" := by
  exact ⟨rfl, rfl, by decide⟩

/-- C10, amended: no bridge request ever removes the html slot — the slot
changes only through POST /html, which replaces it by the posted value —
and once the stored HTML is non-empty, every await-extension-html read
returns exactly the stored HTML, however stale; the fallback HTML is used
only when no HTML was ever posted or the last posted HTML was empty. -/
theorem C10_theorem (s : BridgeState) (fb h : String)
    (hh : s.html = some h) (hne : h ≠ "") :
    (∀ r, ((ExtensionBridge.fetch s r).1).html = s.html
        ∨ ∃ b, r = .postHtml b ∧ ((ExtensionBridge.fetch s r).1).html = some b)
    ∧ awaitExtensionHtmlStep s fb = h := by
  constructor
  · intro r
    cases r with
    | getCommand =>
      left
      cases hc : s.command with
      | none => simp [ExtensionBridge.fetch, hc]
      | some c =>
        simp only [ExtensionBridge.fetch, hc]
        split <;> rfl
    | postCommand b => left; rfl
    | getHtml =>
      left
      cases hx : s.html with
      | none => simp [ExtensionBridge.fetch, hx]
      | some c =>
        simp only [ExtensionBridge.fetch, hx]
        split <;> exact hx
    | postHtml b => right; exact ⟨b, rfl, rfl⟩
    | otherPath => left; rfl
    | knownPathOtherMethod => left; rfl
  · have hfalse : h.isEmpty = false := isEmpty_false_iff.mpr hne
    simp [awaitExtensionHtmlStep, ExtensionBridge.fetch, hh, hfalse]

/-- C10, witness: with a non-empty HTML stored, the await step returns it
rather than the fallback. -/
theorem C10_witness :
    awaitExtensionHtmlStep { command := none, html := some "<p>jobs</p>" }
      "fallback html" = "<p>jobs</p>" :=
  (C10_theorem { command := none, html := some "<p>jobs</p>" } "fallback html"
    "<p>jobs</p>" rfl (by decide)).2

/-- C7: poison messages versus transient failures. A queue body that fails
the payload schema is acknowledged with no self-heal invocation and no
store change; a body that validates but whose rendering or in-page
evaluation throws is sent back for redelivery. -/
theorem C7_theorem (env : ScrapeEnv) (canonicalAi : CanonicalAiOutcome) (shw : Bool)
    (now : String) (uuidAt : Nat → String) (raw : RawQueuePayload) :
    (queuePayloadSchemaParse env.isUrl raw = none →
      ∀ page, (handleQueueMessage env page canonicalAi shw now uuidAt raw).decision = .ack
        ∧ (handleQueueMessage env page canonicalAi shw now uuidAt raw).selfHealCalls = []
        ∧ (handleQueueMessage env page canonicalAi shw now uuidAt raw).productionJobs
          = env.productionJobs
        ∧ (handleQueueMessage env page canonicalAi shw now uuidAt raw).companyConfigs
          = env.companyConfigs)
    ∧ (∀ payload, queuePayloadSchemaParse env.isUrl raw = some payload →
        (handleQueueMessage env .throws canonicalAi shw now uuidAt raw).decision = .retry) := by
  constructor
  · intro hnone page
    simp [handleQueueMessage, hnone]
  · intro payload hsome
    simp [handleQueueMessage, hsome]

/-- C7, witness: a body with no fields is acked; a valid body whose
rendering throws is retried. -/
theorem C7_witness :
    (handleQueueMessage
      { isUrl := fun s => s = "https://ok.example/", resolveUrl := fun c _ => some c
        companyConfigs := fun _ => none, selectorKv := fun _ => none, productionJobs := [] }
      (.ok "" []) .noJson false "t0" (fun _ => "uuid-1")
      { companyId := none, linkedinUrl := none, overrideSelectors := none }).decision = .ack
    ∧ (handleQueueMessage
      { isUrl := fun s => s = "https://ok.example/", resolveUrl := fun c _ => some c
        companyConfigs := fun _ => none, selectorKv := fun _ => none, productionJobs := [] }
      .throws .noJson false "t0" (fun _ => "uuid-1")
      { companyId := some "acme", linkedinUrl := some "https://ok.example/"
        overrideSelectors := none }).decision = .retry :=
  ⟨((C7_theorem _ .noJson false "t0" (fun _ => "uuid-1")
      { companyId := none, linkedinUrl := none, overrideSelectors := none }).1
      rfl (.ok "" [])).1,
   (C7_theorem _ .noJson false "t0" (fun _ => "uuid-1")
      { companyId := some "acme", linkedinUrl := some "https://ok.example/"
        overrideSelectors := none }).2
     { companyId := "acme", linkedinUrl := "https://ok.example/", overrideSelectors := none }
     (by decide)⟩

/-! Ledger lemmas for the upsert claims. -/

theorem jobKeyMatches_update (cid url : String) (r : ProductionJobRow)
    (t : String) (l : Option String) (sn : Option String) (a : String) (p : ScrapedJob) :
    jobKeyMatches cid url
      { r with title := t, location := l, snippet := sn, scraped_at := a, raw_payload := p }
    = jobKeyMatches cid url r := rfl

theorem countMatching_eq_countP (table : List ProductionJobRow) (cid url : String) :
    countMatching table cid url = table.countP (jobKeyMatches cid url) :=
  (List.countP_eq_length_filter _ _).symm

theorem upsert_countMatching_eq_one (table : List ProductionJobRow)
    (jobId cid t : String) (l : Option String) (url : String) (sn : Option String)
    (a : String) (p : ScrapedJob) (h : countMatching table cid url ≤ 1) :
    countMatching (upsertProductionJob table jobId cid t l url sn a p) cid url = 1 := by
  unfold upsertProductionJob
  by_cases hany : table.any (jobKeyMatches cid url) = true
  · rw [if_pos hany]
    rw [countMatching_eq_countP, List.countP_map] at *
    have hcong : ∀ r ∈ table,
        ((jobKeyMatches cid url ∘ fun r =>
          if jobKeyMatches cid url r then
            { r with title := t, location := l, snippet := sn, scraped_at := a, raw_payload := p }
          else r) r = true ↔ jobKeyMatches cid url r = true) := by
      intro r _
      by_cases hr : jobKeyMatches cid url r = true
      · simp [Function.comp, hr, jobKeyMatches_update]
      · simp [Function.comp, hr]
    rw [List.countP_congr hcong]
    have hpos : 0 < table.countP (jobKeyMatches cid url) := by
      rw [List.countP_pos_iff]
      simpa using List.any_eq_true.mp hany
    omega
  · rw [if_neg hany]
    rw [countMatching_eq_countP, List.countP_append] at *
    have hzero : table.countP (jobKeyMatches cid url) = 0 := by
      rw [List.countP_eq_zero]
      intro r hr hmatch
      exact hany (List.any_eq_true.mpr ⟨r, hr, hmatch⟩)
    have hone : List.countP (jobKeyMatches cid url)
        [{ job_id := jobId, company_id := cid, title := t, location := l, url := url,
           snippet := sn, scraped_at := a, raw_payload := p }] = 1 := by
      simp [List.countP_cons, jobKeyMatches]
    omega

theorem upsert_latest_fields (table : List ProductionJobRow)
    (jobId cid t : String) (l : Option String) (url : String) (sn : Option String)
    (a : String) (p : ScrapedJob) :
    ∀ r ∈ upsertProductionJob table jobId cid t l url sn a p,
      jobKeyMatches cid url r = true →
      r.title = t ∧ r.location = l ∧ r.snippet = sn ∧ r.scraped_at = a ∧ r.raw_payload = p := by
  intro r hr hmatch
  unfold upsertProductionJob at hr
  by_cases hany : table.any (jobKeyMatches cid url) = true
  · rw [if_pos hany] at hr
    obtain ⟨r0, _, hr0⟩ := List.mem_map.mp hr
    by_cases h0 : jobKeyMatches cid url r0 = true
    · rw [if_pos h0] at hr0
      subst hr0
      exact ⟨rfl, rfl, rfl, rfl, rfl⟩
    · rw [if_neg h0] at hr0
      subst hr0
      exact absurd hmatch h0
  · rw [if_neg hany] at hr
    rcases List.mem_append.mp hr with hin | hin
    · exact absurd (List.any_eq_true.mpr ⟨r, hin, hmatch⟩) hany
    · rcases List.mem_singleton.mp hin with rfl
      exact ⟨rfl, rfl, rfl, rfl, rfl⟩

theorem upsert_conflict_eq (table : List ProductionJobRow)
    (jobId cid t : String) (l : Option String) (url : String) (sn : Option String)
    (a : String) (p : ScrapedJob) (hany : table.any (jobKeyMatches cid url) = true) :
    upsertProductionJob table jobId cid t l url sn a p
      = table.map (fun r =>
          if jobKeyMatches cid url r then
            { r with title := t, location := l, snippet := sn, scraped_at := a, raw_payload := p }
          else r) := by
  unfold upsertProductionJob
  rw [if_pos hany]

theorem upsert_conflict_preserves_job_ids (table : List ProductionJobRow)
    (jobId cid t : String) (l : Option String) (url : String) (sn : Option String)
    (a : String) (p : ScrapedJob) (hany : table.any (jobKeyMatches cid url) = true) :
    (upsertProductionJob table jobId cid t l url sn a p).map (fun r => r.job_id)
      = table.map (fun r => r.job_id) := by
  unfold upsertProductionJob
  rw [if_pos hany, List.map_map]
  apply List.map_congr_left
  intro r _
  by_cases hr : jobKeyMatches cid url r = true
  · simp [Function.comp, hr]
  · simp [Function.comp, hr]

/-- C8: the production-jobs upsert is idempotent on its key. Starting from
a table respecting the UNIQUE(company_id, url) constraint, two upserts for
the same pair, with possibly different mutable fields, leave exactly one
row for the pair, and that row carries the second upsert values of every
mutable field (title, location, snippet, scraped_at, raw_payload). -/
theorem C8_theorem (table : List ProductionJobRow) (cid url id1 id2 t1 t2 : String)
    (l1 l2 : Option String) (s1 s2 : Option String) (a1 a2 : String) (p1 p2 : ScrapedJob)
    (h : countMatching table cid url ≤ 1) :
    countMatching
      (upsertProductionJob (upsertProductionJob table id1 cid t1 l1 url s1 a1 p1)
        id2 cid t2 l2 url s2 a2 p2) cid url = 1
    ∧ ∀ r ∈ upsertProductionJob (upsertProductionJob table id1 cid t1 l1 url s1 a1 p1)
        id2 cid t2 l2 url s2 a2 p2,
        jobKeyMatches cid url r = true →
        r.title = t2 ∧ r.location = l2 ∧ r.snippet = s2 ∧ r.scraped_at = a2
          ∧ r.raw_payload = p2 := by
  have h1 := upsert_countMatching_eq_one table id1 cid t1 l1 url s1 a1 p1 h
  constructor
  · exact upsert_countMatching_eq_one _ id2 cid t2 l2 url s2 a2 p2 (by omega)
  · exact upsert_latest_fields _ id2 cid t2 l2 url s2 a2 p2

/-- C8, witness: two upserts of (acme, u1) with differing snippets on the
empty table leave one row, carrying the second snippet. -/
theorem C8_witness :
    countMatching
      (upsertProductionJob
        (upsertProductionJob [] "id1" "acme" "T" none "u1" (some "first") "a1"
          { title := "T", url := "u1", location := none, snippet := some "first" })
        "id2" "acme" "T" none "u1" (some "second") "a2"
        { title := "T", url := "u1", location := none, snippet := some "second" })
      "acme" "u1" = 1 :=
  (C8_theorem [] "acme" "u1" "id1" "id2" "T" "T" none none (some "first") (some "second")
    "a1" "a2"
    { title := "T", url := "u1", location := none, snippet := some "first" }
    { title := "T", url := "u1", location := none, snippet := some "second" }
    (by decide)).1

/-- C9: repeated upserts to the same (companyId, url) key preserve the
originally minted record identifier. Starting with no row for the key, the
first upsert inserts with id1; a second upsert with a fresh id2 updates in
place: every row for the key still carries id1, and the multiset of job
ids of the whole table is unchanged by the second upsert, so id2 is
discarded. -/
theorem C9_theorem (table : List ProductionJobRow) (cid url id1 id2 t1 t2 : String)
    (l1 l2 : Option String) (s1 s2 : Option String) (a1 a2 : String) (p1 p2 : ScrapedJob)
    (h : countMatching table cid url = 0) :
    (∀ r ∈ upsertProductionJob (upsertProductionJob table id1 cid t1 l1 url s1 a1 p1)
        id2 cid t2 l2 url s2 a2 p2,
        jobKeyMatches cid url r = true → r.job_id = id1)
    ∧ (upsertProductionJob (upsertProductionJob table id1 cid t1 l1 url s1 a1 p1)
        id2 cid t2 l2 url s2 a2 p2).map (fun r => r.job_id)
      = (upsertProductionJob table id1 cid t1 l1 url s1 a1 p1).map (fun r => r.job_id) := by
  have hnone : table.any (jobKeyMatches cid url) = false := by
    rw [countMatching_eq_countP] at h
    rw [Bool.eq_false_iff]
    intro hany
    obtain ⟨r, hr, hmatch⟩ := List.any_eq_true.mp hany
    have : 0 < table.countP (jobKeyMatches cid url) := List.countP_pos_iff.mpr ⟨r, hr, hmatch⟩
    omega
  have hT1 : upsertProductionJob table id1 cid t1 l1 url s1 a1 p1
      = table ++ [{ job_id := id1, company_id := cid, title := t1, location := l1, url := url,
                    snippet := s1, scraped_at := a1, raw_payload := p1 }] := by
    unfold upsertProductionJob
    rw [if_neg (by rw [hnone]; exact Bool.false_ne_true)]
  have hany1 : (upsertProductionJob table id1 cid t1 l1 url s1 a1 p1).any
      (jobKeyMatches cid url) = true := by
    rw [hT1, List.any_eq_true]
    refine ⟨_, List.mem_append_right _ (List.mem_singleton.mpr rfl), ?_⟩
    simp [jobKeyMatches]
  have houter := upsert_conflict_eq (upsertProductionJob table id1 cid t1 l1 url s1 a1 p1)
    id2 cid t2 l2 url s2 a2 p2 hany1
  constructor
  · intro r hr hmatch
    rw [houter] at hr
    obtain ⟨r0, hr0mem, hr0⟩ := List.mem_map.mp hr
    have hid : r.job_id = r0.job_id := by
      by_cases h0 : jobKeyMatches cid url r0 = true
      · rw [if_pos h0] at hr0; subst hr0; rfl
      · rw [if_neg h0] at hr0; subst hr0; rfl
    have hmatch0 : jobKeyMatches cid url r0 = true := by
      by_cases h0 : jobKeyMatches cid url r0 = true
      · exact h0
      · rw [if_neg h0] at hr0; subst hr0; exact absurd hmatch h0
    rw [hT1] at hr0mem
    rcases List.mem_append.mp hr0mem with hin | hin
    · exact absurd (List.any_eq_true.mpr ⟨r0, hin, hmatch0⟩)
        (by rw [hnone]; exact Bool.false_ne_true)
    · rcases List.mem_singleton.mp hin with rfl
      rw [hid]
  · exact upsert_conflict_preserves_job_ids _ id2 cid t2 l2 url s2 a2 p2 hany1

/-- C9, witness: on the empty table, inserting (acme, u1) with id1 and
upserting again with id2 leaves the table job ids unchanged — id2 is
discarded. -/
theorem C9_witness :
    (upsertProductionJob
        (upsertProductionJob [] "id1" "acme" "T" none "u1" (some "first") "a1"
          { title := "T", url := "u1", location := none, snippet := some "first" })
        "id2" "acme" "T" none "u1" (some "second") "a2"
        { title := "T", url := "u1", location := none, snippet := some "second" }).map
      (fun r => r.job_id)
    = (upsertProductionJob [] "id1" "acme" "T" none "u1" (some "first") "a1"
        { title := "T", url := "u1", location := none, snippet := some "first" }).map
      (fun r => r.job_id) :=
  (C9_theorem [] "acme" "u1" "id1" "id2" "T" "T" none none (some "first") (some "second")
    "a1" "a2"
    { title := "T", url := "u1", location := none, snippet := some "first" }
    { title := "T", url := "u1", location := none, snippet := some "second" }
    (by decide)).2

/-- C3, failing input: a valid work item for a company with no persisted
row, a settling page with HTML but zero matching containers, and a
canonical-URL inference that returns a valid URL. The canonical backfill
INSERT is rejected by SQLite (it names the column override_selectors
inside its VALUES clause), the thrown error reaches the catch block, and
the dispatcher retries the message with zero self-healing invocations and
zero ledger writes — the claim instead requires exactly one SelfHealWorkflow
invocation and an ack on every zero-record extraction. With the inference
outcome failing (throws), the same work item is acked with exactly one
invocation, as claimed. -/
theorem C3_theorem :
    (handleQueueMessage
      { isUrl := fun _ => true, resolveUrl := fun c _ => some c
        companyConfigs := fun _ => none, selectorKv := fun _ => none, productionJobs := [] }
      (.ok "<html>careers</html>" []) (.json (some "https://acme.example/careers"))
      false "t0" (fun _ => "uuid-1")
      { companyId := some "acme", linkedinUrl := some "https://linkedin.example/acme"
        overrideSelectors := none }).decision = .retry
    ∧ (handleQueueMessage
      { isUrl := fun _ => true, resolveUrl := fun c _ => some c
        companyConfigs := fun _ => none, selectorKv := fun _ => none, productionJobs := [] }
      (.ok "<html>careers</html>" []) (.json (some "https://acme.example/careers"))
      false "t0" (fun _ => "uuid-1")
      { companyId := some "acme", linkedinUrl := some "https://linkedin.example/acme"
        overrideSelectors := none }).selfHealCalls = []
    ∧ (handleQueueMessage
      { isUrl := fun _ => true, resolveUrl := fun c _ => some c
        companyConfigs := fun _ => none, selectorKv := fun _ => none, productionJobs := [] }
      (.ok "<html>careers</html>" []) .throws
      false "t0" (fun _ => "uuid-1")
      { companyId := some "acme", linkedinUrl := some "https://linkedin.example/acme"
        overrideSelectors := none }).decision = .ack
    ∧ (handleQueueMessage
      { isUrl := fun _ => true, resolveUrl := fun c _ => some c
        companyConfigs := fun _ => none, selectorKv := fun _ => none, productionJobs := [] }
      (.ok "<html>careers</html>" []) .throws
      false "t0" (fun _ => "uuid-1")
      { companyId := some "acme", linkedinUrl := some "https://linkedin.example/acme"
        overrideSelectors := none }).selfHealCalls
      = [{ companyId := "acme", url := "https://linkedin.example/acme"
           fallbackHtml := "<html>careers</html>"
           existingSelectors := some DEFAULT_SELECTORS }] := by
  exact ⟨rfl, rfl, rfl, rfl⟩

end JobScraper
